import Mathlib

/-!
Verification development for the Transport core of the mediasoup SFU worker
(src/worker/src/RTC/Transport.cpp).  The C++ code is shallowly embedded:
the producer/consumer maps become association lists, the RtpListener becomes
an SSRC-keyed association list, thrown MediaSoupError values become
`Except.error`, and the observable side effects of a handler (listener
callbacks, destructions, log lines, emitted RTCP compounds) are recorded as
explicit event lists.  Machine integers are modelled as `Nat` with explicit
`% 2 ^ w` where the C++ performs a narrowing conversion, and the single
binary32 multiplication in the RTCP timer is modelled by an exact
round-to-nearest-even rounding function on `ℚ`.
-/

namespace Mediasoup

/-- JSON value as seen through the nlohmann accessors used by Transport.cpp:
`is_string` distinguishes `.str`, `is_number_unsigned` distinguishes `.uint`
(stored as a 64-bit unsigned number); every other JSON shape is `.other`. -/
inductive JsonVal where
  | str (s : String)
  | uint (n : Nat)
  | other
deriving DecidableEq

/-- Channel request methods dispatched by HandleRequest; `unhandled` stands
for every method id that falls into the `default` branch. -/
inductive MethodId where
  | transportSetMaxIncomingBitrate
  | producerClose
  | consumerClose
  | unhandled
deriving DecidableEq

/-- Channel request: a method id plus the `internal` and `data` JSON objects,
modelled as association lists from field name to value. -/
structure Request where
  methodId : MethodId
  internal : List (String × JsonVal)
  data : List (String × JsonVal)
deriving DecidableEq

/-- Reply sent on a request: `request->Accept()` or `request->Reject(reason)`. -/
inductive Reply where
  | accept
  | reject (reason : String)
deriving DecidableEq

/-- Transport-level RTP header extension ids; 0 means absent. -/
structure HeaderExtensionIds where
  absSendTime : Nat
  mid : Nat
  rid : Nat
deriving DecidableEq

/-- Media kind of a consumer. -/
inductive MediaKind where
  | audio
  | video
deriving DecidableEq

/-- One encoding of a consumer's RtpParameters: a primary SSRC plus optional
RTX and FEC SSRCs (the `hasRtx` / `hasFec` flags mirror the C++ fields). -/
structure RtpEncoding where
  ssrc : Nat
  hasRtx : Bool
  rtxSsrc : Nat
  hasFec : Bool
  fecSsrc : Nat
deriving DecidableEq

/-- Producer as seen from Transport.cpp: its id, the primary SSRCs declared
in its RTP parameters (consumed by the RtpListener), its transport-level
header extension ids, and the effect of its `GetRtcp` call on a compound
packet (a number of receiver reports and a serialized byte count). -/
structure Producer where
  id : String
  primarySsrcs : List Nat
  hdrExtIds : HeaderExtensionIds
  rtcpRRCount : Nat
  rtcpBytes : Nat
deriving DecidableEq

/-- Consumer as seen from Transport.cpp: id, media kind, started flag,
encodings (for the SSRC reverse lookup), the transmission rate returned by
`GetTransmissionRate(now)` in bits per second, and the effect of its
`GetRtcp` call on a compound packet (whether it appends a sender report,
and how many serialized bytes it adds). -/
structure Consumer where
  id : String
  kind : MediaKind
  started : Bool
  encodings : List RtpEncoding
  transmissionRate : Nat
  rtcpAddsSR : Bool
  rtcpBytes : Nat
deriving DecidableEq

/-- Lookup in an association list keyed by strings (std::map::find). -/
def mapFind {α : Type} : List (String × α) → String → Option α
  | [], _ => none
  | (k, v) :: rest, key => if k = key then some v else mapFind rest key

/-- Erase every entry with the given key (std::map::erase). -/
def mapErase {α : Type} : List (String × α) → String → List (String × α)
  | [], _ => []
  | (k, v) :: rest, key =>
      if k = key then mapErase rest key else (k, v) :: mapErase rest key

/-- Insert-or-assign by key (std::map::operator[] followed by assignment). -/
def mapInsert {α : Type} (m : List (String × α)) (key : String) (v : α) :
    List (String × α) :=
  mapErase m key ++ [(key, v)]

/-- Values of an association list, in iteration order. -/
def mapValues {α : Type} (m : List (String × α)) : List α :=
  m.map (fun kv => kv.2)

/-- The RtpListener table: SSRC to Producer. -/
def RtpTable : Type := List (Nat × Producer)

/-- Whether some entry of the RtpListener table carries the given SSRC. -/
def tableHasSsrc : List (Nat × Producer) → Nat → Bool
  | [], _ => false
  | (s, _) :: rest, ssrc => if s = ssrc then true else tableHasSsrc rest ssrc

/-- Modelled from the spec: `RtpListener::AddProducer` (the RtpListener class
is not part of src/).  Per spec section 4.2 and invariant 1, it registers
every primary SSRC declared in the producer's RTP parameters, fails (throws)
on any SSRC collision, and leaves the table unchanged on failure so that each
registered SSRC is present exactly once. -/
def addProducerTable (t : List (Nat × Producer)) (p : Producer) :
    Except String (List (Nat × Producer)) :=
  if (∃ s ∈ p.primarySsrcs, tableHasSsrc t s = true) ∨ ¬ p.primarySsrcs.Nodup then
    .error "ssrc already exists in RTP listener"
  else
    .ok (t ++ p.primarySsrcs.map (fun s => (s, p)))

/-- Modelled from the spec: `RtpListener::RemoveProducer` removes every table
entry that maps to the given producer. -/
def removeProducerTable : List (Nat × Producer) → Producer → List (Nat × Producer)
  | [], _ => []
  | (s, q) :: rest, p =>
      if q = p then removeProducerTable rest p else (s, q) :: removeProducerTable rest p

/-- Modelled from the spec: `RtpListener::GetProducer` resolves an SSRC to
the producer registered for it. -/
def getProducerTable : List (Nat × Producer) → Nat → Option Producer
  | [], _ => none
  | (s, q) :: rest, ssrc => if s = ssrc then some q else getProducerTable rest ssrc

/-- Transport state: the fields of RTC::Transport that the embedded
operations read or write.  The connection status is opaque (a virtual
`IsConnected()` in the source), modelled as a boolean field. -/
structure Transport where
  mapProducers : List (String × Producer)
  mapConsumers : List (String × Consumer)
  rtpListener : List (Nat × Producer)
  rtpHeaderExtensionIds : HeaderExtensionIds
  maxIncomingBitrate : Nat
  availableOutgoingBitrate : Nat
  isConnected : Bool
deriving DecidableEq

/-- Transport state right after the constructor. -/
def initialTransport (connected : Bool) : Transport :=
  { mapProducers := []
    mapConsumers := []
    rtpListener := []
    rtpHeaderExtensionIds := { absSendTime := 0, mid := 0, rid := 0 }
    maxIncomingBitrate := 0
    availableOutgoingBitrate := 0
    isConnected := connected }

/-- Observable side effects of the control-plane handlers: router listener
callbacks, entity destructions, direct calls into an entity, and log lines.
Log macros are modelled only where a claim depends on them. -/
inductive Event where
  | cbProducerClosed (id : String)
  | cbConsumerClosed (id : String)
  | cbConsumerKeyFrameRequested (id : String)
  | destroyProducer (id : String)
  | destroyConsumer (id : String)
  | requestKeyFrameOnConsumer (id : String)
  | debugKeyFrameForNewConsumer
  | timerClosed
  | errorUnknownMethod
  | deliverRRToConsumer (id : String) (ssrc : Nat)
  | warnNoConsumerForRR (ssrc : Nat)
  | deliverSRToProducer (id : String) (ssrc : Nat)
  | warnNoProducerForSR (ssrc : Nat)
  | deliverKeyFrameRequest (id : String)
  | warnNoConsumerForFeedback (ssrc : Nat)
  | deliverNackToConsumer (id : String)
  | warnUnsupportedFeedback
  | warnNoProducerForSdes (ssrc : Nat)
  | debugIgnoringBye
  | warnUnhandledRtcpType (t : Nat)
deriving DecidableEq

/-- Transport::GetProducerFromRequest: resolves `internal.producerId`;
throws (here: `Except.error`) when the field is missing, is not a string, or
names no producer in the map. -/
def getProducerFromRequest (s : Transport) (req : Request) : Except String Producer :=
  match mapFind req.internal "producerId" with
  | some (.str pid) =>
      match mapFind s.mapProducers pid with
      | some p => .ok p
      | none => .error "Producer not found"
  | some _ => .error "request has no internal.producerId"
  | none => .error "request has no internal.producerId"

/-- Transport::GetConsumerFromRequest: same shape for `internal.consumerId`. -/
def getConsumerFromRequest (s : Transport) (req : Request) : Except String Consumer :=
  match mapFind req.internal "consumerId" with
  | some (.str cid) =>
      match mapFind s.mapConsumers cid with
      | some c => .ok c
      | none => .error "Consumer not found"
  | some _ => .error "request has no internal.consumerId"
  | none => .error "request has no internal.consumerId"

/-- Minimum incoming bitrate accepted by TRANSPORT_SET_MAX_INCOMING_BITRATE. -/
def MinBitrate : Nat := 10000

/-- HandleRequest.  Every MediaSoupError thrown by the helper getters is
caught inside the corresponding case (mirroring the try/catch blocks of the
source), so the result is always `Except.ok`; an uncaught propagation would
show up as `Except.error`.  The bitrate value is read through
`get<uint32_t>()`, which converts the stored 64-bit unsigned number by
truncation modulo `2 ^ 32`.  In the CONSUMER_CLOSE case the source erases and
notifies using the resolved consumer (the local variable naming in the
source notwithstanding, per the spec's reading of the intent). -/
def handleRequest (s : Transport) (req : Request) :
    Except String (Transport × List Event × Reply) :=
  match req.methodId with
  | .transportSetMaxIncomingBitrate =>
      match mapFind req.data "bitrate" with
      | some (.uint v) =>
          let bitrate := v % 2 ^ 32
          let bitrate := if bitrate < MinBitrate then MinBitrate else bitrate
          .ok ({ s with maxIncomingBitrate := bitrate }, [], .accept)
      | some _ => .ok (s, [], .reject "missing bitrate")
      | none => .ok (s, [], .reject "missing bitrate")
  | .producerClose =>
      match getProducerFromRequest s req with
      | .error e => .ok (s, [], .reject e)
      | .ok p =>
          .ok ({ s with
                  mapProducers := mapErase s.mapProducers p.id
                  rtpListener := removeProducerTable s.rtpListener p },
               [.cbProducerClosed p.id, .destroyProducer p.id], .accept)
  | .consumerClose =>
      match getConsumerFromRequest s req with
      | .error e => .ok (s, [], .reject e)
      | .ok c =>
          .ok ({ s with mapConsumers := mapErase s.mapConsumers c.id },
               [.cbConsumerClosed c.id, .destroyConsumer c.id], .accept)
  | .unhandled => .ok (s, [.errorUnknownMethod], .reject "unknown method")

/-- Merge a producer's transport-level header extension ids into the
transport's ones: each nonzero field overwrites. -/
def mergeHdrExtIds (t p : HeaderExtensionIds) : HeaderExtensionIds :=
  { absSendTime := if p.absSendTime ≠ 0 then p.absSendTime else t.absSendTime
    mid := if p.mid ≠ 0 then p.mid else t.mid
    rid := if p.rid ≠ 0 then p.rid else t.rid }

/-- Transport::HandleProducer: first hands the producer to the RtpListener
(which may throw; in that case nothing is modified and the error propagates
to the caller), then inserts it into the map and merges its header extension
ids. -/
def handleProducer (s : Transport) (p : Producer) : Except String Transport :=
  match addProducerTable s.rtpListener p with
  | .error e => .error e
  | .ok t =>
      .ok { s with
              rtpListener := t
              mapProducers := mapInsert s.mapProducers p.id p
              rtpHeaderExtensionIds := mergeHdrExtIds s.rtpHeaderExtensionIds p.hdrExtIds }

/-- State after a HandleProducer call, whether it succeeded or threw. -/
def applyHandleProducer (s : Transport) (p : Producer) : Transport :=
  match handleProducer s p with
  | .ok s2 => s2
  | .error _ => s

/-- Transport::HandleConsumer: inserts the consumer into the map; when the
transport is connected, the video kind gates only a debug log line and
`consumer->RequestKeyFrame()` is then called directly on the consumer
regardless of its kind (the source carries TODO comments saying it should
instead go through the router listener). -/
def handleConsumer (s : Transport) (c : Consumer) : Transport × List Event :=
  ({ s with mapConsumers := mapInsert s.mapConsumers c.id c },
   if s.isConnected then
     (if c.kind = .video then [.debugKeyFrameForNewConsumer] else [])
       ++ [.requestKeyFrameOnConsumer c.id]
   else [])

/-- Per-producer close events emitted by Transport::Close. -/
def closeProducerEvents : List (String × Producer) → List Event
  | [] => []
  | (_, p) :: rest =>
      .cbProducerClosed p.id :: .destroyProducer p.id :: closeProducerEvents rest

/-- Per-consumer close events emitted by Transport::Close. -/
def closeConsumerEvents : List (String × Consumer) → List Event
  | [] => []
  | (_, c) :: rest =>
      .cbConsumerClosed c.id :: .destroyConsumer c.id :: closeConsumerEvents rest

/-- Transport::Close: notifies the router listener about and destroys every
producer and consumer, clears both maps, and closes the RTCP timer.  The
rtpListener table is not touched. -/
def closeTransport (s : Transport) : Transport × List Event :=
  ({ s with mapProducers := [], mapConsumers := [] },
   closeProducerEvents s.mapProducers ++ closeConsumerEvents s.mapConsumers
     ++ [.timerClosed])

/-- State after an arbitrary HandleRequest call. -/
def applyRequest (s : Transport) (req : Request) : Transport :=
  match handleRequest s req with
  | .ok (s2, _, _) => s2
  | .error _ => s

/-- Transport states reachable by any sequence of HandleProducer calls,
HandleRequest calls and Close() calls, starting from a fresh transport. -/
inductive Reachable : Transport → Prop where
  | init (connected : Bool) : Reachable (initialTransport connected)
  | produce {s : Transport} (p : Producer) :
      Reachable s → Reachable (applyHandleProducer s p)
  | request {s : Transport} (req : Request) :
      Reachable s → Reachable (applyRequest s req)
  | closeStep {s : Transport} :
      Reachable s → Reachable (closeTransport s).1

/-- Whether one encoding of a consumer claims the given SSRC as its primary,
RTX or FEC SSRC (the three checks of the inner loop of GetStartedConsumer). -/
def encodingMatches (e : RtpEncoding) (ssrc : Nat) : Bool :=
  e.ssrc == ssrc || (e.hasRtx && e.rtxSsrc == ssrc) || (e.hasFec && e.fecSsrc == ssrc)

/-- Transport::GetStartedConsumer: scans the consumers map in iteration
order, skips consumers that are not started, and returns the first started
consumer one of whose encodings claims the SSRC. -/
def getStartedConsumer : List (String × Consumer) → Nat → Option Consumer
  | [], _ => none
  | (_, c) :: rest, ssrc =>
      if c.started && c.encodings.any (fun e => encodingMatches e ssrc) then some c
      else getStartedConsumer rest ssrc

/-- Incoming RTCP packet, discriminated the way the nested switches of
ReceiveRtcpPacket discriminate on (type, messageType, application).  Report
blocks and SDES chunks are carried as their SSRCs. -/
inductive RtcpPacket where
  | rr (reports : List Nat)
  | psfbKeyFrame (mediaSsrc : Nat)
  | psfbAfbRemb (bitrate : Nat)
  | psfbAfbOther (mediaSsrc : Nat)
  | psfbOther (mediaSsrc : Nat)
  | rtpfbNack (mediaSsrc : Nat)
  | rtpfbOther (mediaSsrc : Nat)
  | sr (reports : List Nat)
  | sdes (chunks : List Nat)
  | bye
  | unhandledType (t : Nat)
deriving DecidableEq

/-- The RR loop of ReceiveRtcpPacket: on a report whose SSRC matches no
started consumer it logs a warning and breaks out of the loop. -/
def rrLoop (cs : List (String × Consumer)) : List Nat → List Event
  | [] => []
  | ssrc :: rest =>
      match getStartedConsumer cs ssrc with
      | none => [.warnNoConsumerForRR ssrc]
      | some c => .deliverRRToConsumer c.id ssrc :: rrLoop cs rest

/-- The SR loop of ReceiveRtcpPacket: on a report whose SSRC matches no
producer in the rtpListener it logs a warning and continues with the next
report. -/
def srLoop (t : List (Nat × Producer)) : List Nat → List Event
  | [] => []
  | ssrc :: rest =>
      match getProducerTable t ssrc with
      | none => .warnNoProducerForSR ssrc :: srLoop t rest
      | some p => .deliverSRToProducer p.id ssrc :: srLoop t rest

/-- The SDES loop of ReceiveRtcpPacket: chunks are looked up; a miss logs
and continues, a hit does nothing further. -/
def sdesLoop (t : List (Nat × Producer)) : List Nat → List Event
  | [] => []
  | ssrc :: rest =>
      match getProducerTable t ssrc with
      | none => .warnNoProducerForSdes ssrc :: sdesLoop t rest
      | some _ => sdesLoop t rest

/-- Transport::ReceiveRtcpPacket.  The only state it ever writes is
`availableOutgoingBitrate` (REMB); everything else is deliveries and logs. -/
def receiveRtcpPacket (s : Transport) (pkt : RtcpPacket) : Transport × List Event :=
  match pkt with
  | .rr reports => (s, rrLoop s.mapConsumers reports)
  | .psfbKeyFrame mediaSsrc =>
      match getStartedConsumer s.mapConsumers mediaSsrc with
      | none => (s, [.warnNoConsumerForFeedback mediaSsrc])
      | some c => (s, [.deliverKeyFrameRequest c.id])
  | .psfbAfbRemb bitrate =>
      ({ s with availableOutgoingBitrate := bitrate }, [])
  | .psfbAfbOther _ => (s, [.warnUnsupportedFeedback])
  | .psfbOther _ => (s, [.warnUnsupportedFeedback])
  | .rtpfbNack mediaSsrc =>
      match getStartedConsumer s.mapConsumers mediaSsrc with
      | none => (s, [.warnNoConsumerForFeedback mediaSsrc])
      | some c => (s, [.deliverNackToConsumer c.id])
  | .rtpfbOther mediaSsrc =>
      match getStartedConsumer s.mapConsumers mediaSsrc with
      | none => (s, [.warnNoConsumerForFeedback mediaSsrc])
      | some _ => (s, [.warnUnsupportedFeedback])
  | .sr reports => (s, srLoop s.rtpListener reports)
  | .sdes chunks => (s, sdesLoop s.rtpListener chunks)
  | .bye => (s, [.debugIgnoringBye])
  | .unhandledType t => (s, [.warnUnhandledRtcpType t])

/-- Modelled from the spec: `RTC::RTCP::BufferSize`, the fixed size of the
process-wide RTCP serialization buffer (the RTCP headers are not in src/). -/
def BufferSize : Nat := 65536

/-- Abstraction of RTC::RTCP::CompoundPacket: whether it holds a sender
report, how many receiver reports it holds, and its serialized size. -/
structure Compound where
  hasSenderReport : Bool
  rrCount : Nat
  size : Nat
deriving DecidableEq

/-- The empty compound packet. -/
def emptyCompound : Compound := { hasSenderReport := false, rrCount := 0, size := 0 }

/-- Modelled from the spec: Consumer::GetRtcp appends the consumer's
outgoing reports into the compound, possibly adding a sender report. -/
def consumerGetRtcp (c : Consumer) (pkt : Compound) : Compound :=
  { pkt with
      hasSenderReport := pkt.hasSenderReport || c.rtcpAddsSR
      size := pkt.size + c.rtcpBytes }

/-- Modelled from the spec: Producer::GetRtcp appends the producer's
receiver reports into the compound. -/
def producerGetRtcp (pkt : Compound) (p : Producer) : Compound :=
  { pkt with rrCount := pkt.rrCount + p.rtcpRRCount, size := pkt.size + p.rtcpBytes }

/-- Events emitted by SendRtcp: a serialized-and-sent compound, or the
warning logged when an oversized compound is dropped. -/
inductive SendEvt where
  | sentCompound (c : Compound)
  | warnPacketTooBig (size : Nat)
deriving DecidableEq

/-- The consumer loop of SendRtcp.  After each consumer's GetRtcp, a compound
holding a sender report is flushed: if its size exceeds BufferSize the
function warns and returns (`none` marks the early return), otherwise the
compound is sent and accumulation restarts from an empty compound. -/
def sendRtcpConsumerLoop (pkt : Compound) :
    List Consumer → List SendEvt × Option Compound
  | [] => ([], some pkt)
  | c :: rest =>
      let pkt2 := consumerGetRtcp c pkt
      if pkt2.hasSenderReport then
        if BufferSize < pkt2.size then ([.warnPacketTooBig pkt2.size], none)
        else
          let tail := sendRtcpConsumerLoop emptyCompound rest
          (.sentCompound pkt2 :: tail.1, tail.2)
      else sendRtcpConsumerLoop pkt2 rest

/-- Transport::SendRtcp for one timer tick: consumer pass, then producer
pass over the remaining compound, then the final flush when the compound
holds at least one receiver report. -/
def sendRtcp (s : Transport) : List SendEvt :=
  match sendRtcpConsumerLoop emptyCompound (mapValues s.mapConsumers) with
  | (evts, none) => evts
  | (evts, some pkt) =>
      let pkt2 := (mapValues s.mapProducers).foldl producerGetRtcp pkt
      if pkt2.rrCount ≠ 0 then
        if BufferSize < pkt2.size then evts ++ [.warnPacketTooBig pkt2.size]
        else evts ++ [.sentCompound pkt2]
      else evts

/-- Round a rational to the nearest integer with ties to even, as IEEE-754
rounding does at the significand level. -/
def rne (s : ℚ) : ℤ :=
  if s - ⌊s⌋ < 1/2 then ⌊s⌋
  else if 1/2 < s - ⌊s⌋ then ⌊s⌋ + 1
  else if ⌊s⌋ % 2 = 0 then ⌊s⌋ else ⌊s⌋ + 1

/-- Round a positive rational to the nearest IEEE-754 binary32 value
(round-to-nearest-even with a 24-bit significand, unbounded exponent: exact
for every normal binary32 value, which covers all quantities appearing in
OnTimer).  Models the C++ `float` arithmetic of the jitter computation. -/
def roundF32 (q : ℚ) : ℚ :=
  if 0 < q then
    (rne (q * 2 ^ ((23 : ℤ) - Int.log 2 q)) : ℚ) * 2 ^ (Int.log 2 q - 23)
  else 0

/-- Modelled from the spec: `RTC::RTCP::MaxVideoIntervalMs` (defined in the
RTCP headers, which are not in src/); the spec gives 1000 ms. -/
def MaxVideoIntervalMs : Nat := 1000

/-- The base RTCP interval computed by OnTimer before jitter: the default is
MaxVideoIntervalMs; with a non-empty consumers map the per-consumer
transmission rates are accumulated in a uint32 in kbit/s, and a nonzero sum
gives 360000 divided by it, clamped above by MaxVideoIntervalMs. -/
def rtcpBaseInterval (s : Transport) : Nat :=
  if s.mapConsumers.isEmpty then MaxVideoIntervalMs
  else
    let rate := (mapValues s.mapConsumers).foldl
      (fun acc c => (acc + c.transmissionRate / 1000) % 2 ^ 32) 0
    let interval := if rate ≠ 0 then 360000 / rate else MaxVideoIntervalMs
    if MaxVideoIntervalMs < interval then MaxVideoIntervalMs else interval

/-- The binary32 value of `static_cast<float>(k) / 10`, the random jitter
factor for a draw k of GetRandomUInt(5, 15). -/
def jitterFactor (k : ℕ) : ℚ := roundF32 ((k : ℚ) / 10)

/-- The interval passed to `rtcpTimer->Start`: the uint64 base converted to
float (exactly, as base is at most 1000), multiplied by the jitter factor in
binary32 arithmetic, then converted back to uint64 by truncation. -/
def scheduledInterval (base k : ℕ) : ℕ :=
  (⌊roundF32 ((base : ℚ) * jitterFactor k)⌋).toNat

/-- The interval OnTimer rearms the RTCP timer with, given the random draw
k of GetRandomUInt(5, 15). -/
def onTimerNextInterval (s : Transport) (k : ℕ) : ℕ :=
  scheduledInterval (rtcpBaseInterval s) k

/-- Entries of the RtpListener table carrying the given SSRC. -/
def ssrcEntries : List (Nat × Producer) → Nat → List (Nat × Producer)
  | [], _ => []
  | (s, q) :: rest, ssrc =>
      if s = ssrc then (s, q) :: ssrcEntries rest ssrc else ssrcEntries rest ssrc

/-- Consistency of the producers map with the RtpListener table: every
producer in the map is keyed by its own id, and each primary SSRC of its
RTP parameters occurs exactly once in the table, mapping to that producer. -/
def ProducersListenerInv (s : Transport) : Prop :=
  ∀ pid p, mapFind s.mapProducers pid = some p →
    pid = p.id ∧ ∀ ssrc ∈ p.primarySsrcs, ssrcEntries s.rtpListener ssrc = [(ssrc, p)]

/-! Helper lemmas about the association-list maps and the RtpListener table. -/

theorem mapFind_erase {α : Type} (m : List (String × α)) (k key : String) :
    mapFind (mapErase m k) key = if key = k then none else mapFind m key := by
  induction m with
  | nil => simp [mapErase, mapFind]
  | cons hd tail ih =>
    obtain ⟨k1, v1⟩ := hd
    by_cases h1 : k1 = k <;> by_cases h2 : k1 = key <;>
      simp [mapErase, mapFind, h1, h2, ih] <;> simp_all [mapFind]

theorem mapFind_append {α : Type} (a b : List (String × α)) (key : String) :
    mapFind (a ++ b) key =
      match mapFind a key with
      | some v => some v
      | none => mapFind b key := by
  induction a with
  | nil => simp [mapFind]
  | cons hd tl ih =>
    obtain ⟨k1, v1⟩ := hd
    by_cases h : k1 = key <;> simp [mapFind, h, ih]

theorem mapFind_insert {α : Type} (m : List (String × α)) (k key : String) (v : α) :
    mapFind (mapInsert m k v) key = if key = k then some v else mapFind m key := by
  unfold mapInsert
  rw [mapFind_append, mapFind_erase]
  by_cases h : key = k
  · simp [h, mapFind]
  · have h2 : k ≠ key := fun hk => h hk.symm
    cases hm : mapFind m key <;> simp [h, hm, mapFind, h2]

theorem ssrcEntries_append (a b : List (Nat × Producer)) (ssrc : Nat) :
    ssrcEntries (a ++ b) ssrc = ssrcEntries a ssrc ++ ssrcEntries b ssrc := by
  induction a with
  | nil => simp [ssrcEntries]
  | cons hd tl ih =>
    obtain ⟨s, q⟩ := hd
    by_cases h : s = ssrc <;> simp [ssrcEntries, h, ih]

theorem ssrcEntries_of_not_has (t : List (Nat × Producer)) (ssrc : Nat)
    (h : tableHasSsrc t ssrc = false) : ssrcEntries t ssrc = [] := by
  induction t with
  | nil => simp [ssrcEntries]
  | cons hd tl ih =>
    obtain ⟨s, q⟩ := hd
    by_cases hs : s = ssrc
    · rw [tableHasSsrc, if_pos hs] at h
      cases h
    · rw [tableHasSsrc, if_neg hs] at h
      rw [ssrcEntries, if_neg hs]
      exact ih h

theorem ssrcEntries_map_not_mem (l : List Nat) (p : Producer) (ssrc : Nat)
    (h : ssrc ∉ l) : ssrcEntries (l.map fun s => (s, p)) ssrc = [] := by
  induction l with
  | nil => simp [ssrcEntries]
  | cons a tl ih =>
    have ha : a ≠ ssrc := fun hc => h (hc ▸ List.mem_cons_self a tl)
    have htl : ssrc ∉ tl := fun hc => h (List.mem_cons_of_mem a hc)
    simp only [List.map_cons, ssrcEntries, if_neg ha]
    exact ih htl

theorem ssrcEntries_map_self (l : List Nat) (p : Producer) (ssrc : Nat)
    (hnd : l.Nodup) (hm : ssrc ∈ l) :
    ssrcEntries (l.map fun s => (s, p)) ssrc = [(ssrc, p)] := by
  induction l with
  | nil => cases hm
  | cons a tl ih =>
    obtain ⟨hna, hndtl⟩ := List.nodup_cons.mp hnd
    rcases List.mem_cons.mp hm with rfl | hmem
    · simp only [List.map_cons, ssrcEntries, if_pos rfl]
      rw [ssrcEntries_map_not_mem tl p ssrc hna]
      simp
    · have ha : a ≠ ssrc := fun hc => hna (hc ▸ hmem)
      simp only [List.map_cons, ssrcEntries, if_neg ha]
      exact ih hndtl hmem

theorem ssrcEntries_removeProducer (t : List (Nat × Producer)) (p0 : Producer)
    (ssrc : Nat) :
    ssrcEntries (removeProducerTable t p0) ssrc
      = removeProducerTable (ssrcEntries t ssrc) p0 := by
  induction t with
  | nil => simp [ssrcEntries, removeProducerTable]
  | cons hd tl ih =>
    obtain ⟨s, q⟩ := hd
    by_cases hq : q = p0 <;> by_cases hs : s = ssrc <;>
      simp [ssrcEntries, removeProducerTable, hq, hs, ih]

theorem getProducerFromRequest_ok {s : Transport} {req : Request} {p : Producer}
    (h : getProducerFromRequest s req = .ok p) :
    ∃ pid, mapFind req.internal "producerId" = some (.str pid)
      ∧ mapFind s.mapProducers pid = some p := by
  unfold getProducerFromRequest at h
  split at h
  · rename_i pid heq
    split at h
    · rename_i q heq2
      simp only [Except.ok.injEq] at h
      subst h
      exact ⟨pid, heq, heq2⟩
    · simp at h
  · simp at h
  · simp at h

theorem getConsumerFromRequest_ok {s : Transport} {req : Request} {c : Consumer}
    (h : getConsumerFromRequest s req = .ok c) :
    ∃ cid, mapFind req.internal "consumerId" = some (.str cid)
      ∧ mapFind s.mapConsumers cid = some c := by
  unfold getConsumerFromRequest at h
  split at h
  · rename_i cid heq
    split at h
    · rename_i q heq2
      simp only [Except.ok.injEq] at h
      subst h
      exact ⟨cid, heq, heq2⟩
    · simp at h
  · simp at h
  · simp at h

/-! Preservation of the producers-listener invariant along every transition. -/

theorem inv_initialTransport (b : Bool) :
    ProducersListenerInv (initialTransport b) := by
  intro pid p h
  simp [initialTransport, mapFind] at h

theorem applyHandleProducer_eq (s : Transport) (p : Producer) :
    applyHandleProducer s p =
      if (∃ x ∈ p.primarySsrcs, tableHasSsrc s.rtpListener x = true)
          ∨ ¬ p.primarySsrcs.Nodup then s
      else
        { s with
            rtpListener := s.rtpListener ++ p.primarySsrcs.map (fun x => (x, p))
            mapProducers := mapInsert s.mapProducers p.id p
            rtpHeaderExtensionIds :=
              mergeHdrExtIds s.rtpHeaderExtensionIds p.hdrExtIds } := by
  unfold applyHandleProducer handleProducer addProducerTable
  split_ifs with h <;> rfl

theorem inv_applyHandleProducer {s : Transport} (hInv : ProducersListenerInv s)
    (p : Producer) : ProducersListenerInv (applyHandleProducer s p) := by
  rw [applyHandleProducer_eq]
  split_ifs with hguard
  · exact hInv
  · push_neg at hguard
    obtain ⟨hfresh, hnd⟩ := hguard
    intro pid q hfind
    simp only at hfind
    rw [mapFind_insert] at hfind
    by_cases hpid : pid = p.id
    · rw [if_pos hpid] at hfind
      simp only [Option.some.injEq] at hfind
      subst hfind
      refine ⟨hpid, ?_⟩
      intro ssrc hss
      simp only
      rw [ssrcEntries_append,
        ssrcEntries_of_not_has s.rtpListener ssrc
          (by simpa using hfresh ssrc hss),
        ssrcEntries_map_self p.primarySsrcs p ssrc hnd hss]
      simp
    · rw [if_neg hpid] at hfind
      obtain ⟨hid, hentries⟩ := hInv pid q hfind
      refine ⟨hid, ?_⟩
      intro ssrc hss
      simp only
      rw [ssrcEntries_append, hentries ssrc hss]
      by_cases hmem : ssrc ∈ p.primarySsrcs
      · exfalso
        have hfalse : tableHasSsrc s.rtpListener ssrc = false := by
          simpa using hfresh ssrc hmem
        have := ssrcEntries_of_not_has s.rtpListener ssrc hfalse
        rw [hentries ssrc hss] at this
        cases this
      · rw [ssrcEntries_map_not_mem p.primarySsrcs p ssrc hmem]
        simp

theorem inv_applyRequest {s : Transport} (hInv : ProducersListenerInv s)
    (req : Request) : ProducersListenerInv (applyRequest s req) := by
  unfold applyRequest handleRequest
  cases req.methodId with
  | transportSetMaxIncomingBitrate =>
    cases hb : mapFind req.data "bitrate" with
    | none => exact hInv
    | some v => cases v <;> exact hInv
  | producerClose =>
    cases hget : getProducerFromRequest s req with
    | error e => exact hInv
    | ok p =>
      obtain ⟨pid0, _, hfound⟩ := getProducerFromRequest_ok hget
      obtain ⟨hpid0, _⟩ := hInv pid0 p hfound
      intro pid q hfind
      simp only at hfind
      rw [mapFind_erase] at hfind
      by_cases hpid : pid = p.id
      · rw [if_pos hpid] at hfind
        cases hfind
      · rw [if_neg hpid] at hfind
        obtain ⟨hid, hentries⟩ := hInv pid q hfind
        have hqp : q ≠ p := by
          intro hqp
          exact hpid (hid.trans (by rw [hqp]))
        refine ⟨hid, ?_⟩
        intro ssrc hss
        simp only
        rw [ssrcEntries_removeProducer, hentries ssrc hss,
          removeProducerTable, if_neg hqp, removeProducerTable]
  | consumerClose =>
    cases hget : getConsumerFromRequest s req with
    | error e => exact hInv
    | ok c =>
      intro pid q hfind
      exact hInv pid q hfind
  | unhandled => exact hInv

theorem inv_closeTransport {s : Transport} :
    ProducersListenerInv (closeTransport s).1 := by
  intro pid p h
  simp [closeTransport, mapFind] at h

theorem inv_reachable {s : Transport} (h : Reachable s) :
    ProducersListenerInv s := by
  induction h with
  | init b => exact inv_initialTransport b
  | produce p _ ih => exact inv_applyHandleProducer ih p
  | request req _ ih => exact inv_applyRequest ih req
  | closeStep _ _ => exact inv_closeTransport

/-! Helper lemmas about the rounding model. -/

theorem rne_le (s : ℚ) : (rne s : ℚ) ≤ s + 1/2 := by
  have h0 : (⌊s⌋ : ℚ) ≤ s := Int.floor_le s
  have h1 : s < ⌊s⌋ + 1 := Int.lt_floor_add_one s
  unfold rne
  split_ifs <;> push_cast <;> linarith

theorem le_rne (s : ℚ) : s - 1/2 ≤ (rne s : ℚ) := by
  have h0 : (⌊s⌋ : ℚ) ≤ s := Int.floor_le s
  have h1 : s < ⌊s⌋ + 1 := Int.lt_floor_add_one s
  unfold rne
  split_ifs <;> push_cast <;> linarith

theorem rne_intCast (n : ℤ) : rne (n : ℚ) = n := by
  unfold rne
  rw [Int.floor_intCast]
  norm_num

theorem two_zpow_neg24 : (2 : ℚ) ^ (-24 : ℤ) = 1/16777216 := by
  rw [show (-24 : ℤ) = -((24 : ℕ) : ℤ) by norm_num, zpow_neg, zpow_natCast]
  norm_num

theorem roundF32_le {q : ℚ} (hq : 0 < q) : roundF32 q ≤ q * (1 + 1/16777216) := by
  rw [roundF32, if_pos hq]
  set e := Int.log 2 q with he
  have hs : (rne (q * 2 ^ ((23 : ℤ) - e)) : ℚ) ≤ q * 2 ^ ((23 : ℤ) - e) + 1/2 := rne_le _
  have hp : (0 : ℚ) < 2 ^ (e - 23) := zpow_pos (by norm_num) _
  have h1 : (rne (q * 2 ^ ((23 : ℤ) - e)) : ℚ) * 2 ^ (e - 23)
      ≤ (q * 2 ^ ((23 : ℤ) - e) + 1/2) * 2 ^ (e - 23) :=
    mul_le_mul_of_nonneg_right hs (le_of_lt hp)
  have ha : (2 : ℚ) ^ ((23 : ℤ) - e) * 2 ^ (e - 23) = 1 := by
    rw [← zpow_add₀ (two_ne_zero : (2 : ℚ) ≠ 0)]
    norm_num
  have hb : (1/2 : ℚ) * 2 ^ (e - 23) = 2 ^ (e - 24) := by
    rw [show (1/2 : ℚ) = 2 ^ (-1 : ℤ) by norm_num,
      ← zpow_add₀ (two_ne_zero : (2 : ℚ) ≠ 0)]
    congr 1
    ring
  have h2 : (q * 2 ^ ((23 : ℤ) - e) + 1/2) * 2 ^ (e - 23) = q + 2 ^ (e - 24) := by
    calc (q * 2 ^ ((23 : ℤ) - e) + 1/2) * 2 ^ (e - 23)
        = q * (2 ^ ((23 : ℤ) - e) * 2 ^ (e - 23)) + (1/2) * 2 ^ (e - 23) := by ring
      _ = q + 2 ^ (e - 24) := by rw [ha, hb, mul_one]
  have h2e : (2 : ℚ) ^ e ≤ q := by
    have := Int.zpow_log_le_self (b := 2) (R := ℚ) (by norm_num) hq
    rw [← he] at this
    exact_mod_cast this
  have h3 : (2 : ℚ) ^ (e - 24) ≤ q * (1/16777216) := by
    have hsplit : (2 : ℚ) ^ (e - 24) = 2 ^ e * 2 ^ (-24 : ℤ) := by
      rw [← zpow_add₀ (two_ne_zero : (2 : ℚ) ≠ 0)]
      congr 1
    rw [hsplit, two_zpow_neg24]
    exact mul_le_mul_of_nonneg_right h2e (by norm_num)
  rw [h2] at h1
  linarith

theorem le_roundF32 {q : ℚ} (hq : 0 < q) : q * (1 - 1/16777216) ≤ roundF32 q := by
  rw [roundF32, if_pos hq]
  set e := Int.log 2 q with he
  have hs : q * 2 ^ ((23 : ℤ) - e) - 1/2 ≤ (rne (q * 2 ^ ((23 : ℤ) - e)) : ℚ) := le_rne _
  have hp : (0 : ℚ) < 2 ^ (e - 23) := zpow_pos (by norm_num) _
  have h1 : (q * 2 ^ ((23 : ℤ) - e) - 1/2) * 2 ^ (e - 23)
      ≤ (rne (q * 2 ^ ((23 : ℤ) - e)) : ℚ) * 2 ^ (e - 23) :=
    mul_le_mul_of_nonneg_right hs (le_of_lt hp)
  have ha : (2 : ℚ) ^ ((23 : ℤ) - e) * 2 ^ (e - 23) = 1 := by
    rw [← zpow_add₀ (two_ne_zero : (2 : ℚ) ≠ 0)]
    norm_num
  have hb : (1/2 : ℚ) * 2 ^ (e - 23) = 2 ^ (e - 24) := by
    rw [show (1/2 : ℚ) = 2 ^ (-1 : ℤ) by norm_num,
      ← zpow_add₀ (two_ne_zero : (2 : ℚ) ≠ 0)]
    congr 1
    ring
  have h2 : (q * 2 ^ ((23 : ℤ) - e) - 1/2) * 2 ^ (e - 23) = q - 2 ^ (e - 24) := by
    calc (q * 2 ^ ((23 : ℤ) - e) - 1/2) * 2 ^ (e - 23)
        = q * (2 ^ ((23 : ℤ) - e) * 2 ^ (e - 23)) - (1/2) * 2 ^ (e - 23) := by ring
      _ = q - 2 ^ (e - 24) := by rw [ha, hb, mul_one]
  have h2e : (2 : ℚ) ^ e ≤ q := by
    have := Int.zpow_log_le_self (b := 2) (R := ℚ) (by norm_num) hq
    rw [← he] at this
    exact_mod_cast this
  have h3 : (2 : ℚ) ^ (e - 24) ≤ q * (1/16777216) := by
    have hsplit : (2 : ℚ) ^ (e - 24) = 2 ^ e * 2 ^ (-24 : ℤ) := by
      rw [← zpow_add₀ (two_ne_zero : (2 : ℚ) ≠ 0)]
      congr 1
    rw [hsplit, two_zpow_neg24]
    exact mul_le_mul_of_nonneg_right h2e (by norm_num)
  rw [h2] at h1
  linarith

theorem roundF32_half_nat (m : ℕ) (h0 : 0 < m) (h1 : m < 2 ^ 24) :
    roundF32 ((m : ℚ) / 2) = (m : ℚ) / 2 := by
  have hq : (0 : ℚ) < (m : ℚ) / 2 := by positivity
  rw [roundF32, if_pos hq]
  set e := Int.log 2 ((m : ℚ) / 2) with hedef
  have hlt : ((m : ℚ) / 2) < ((2 : ℕ) : ℚ) ^ (23 : ℤ) := by
    have hm : (m : ℚ) < 2 ^ 24 := by exact_mod_cast h1
    rw [show ((23 : ℤ)) = ((23 : ℕ) : ℤ) by norm_num, zpow_natCast]
    push_cast
    nlinarith
  have he : e < 23 := by
    have := (Int.lt_zpow_iff_log_lt (b := 2) (R := ℚ) (by norm_num) hq).mp hlt
    rw [← hedef] at this
    exact this
  have hj : (0 : ℤ) ≤ 22 - e := by omega
  set j : ℕ := (22 - e).toNat with hjdef
  have hj2 : ((22 : ℤ) - e) = (j : ℤ) := (Int.toNat_of_nonneg hj).symm
  have hs : ((m : ℚ) / 2) * 2 ^ ((23 : ℤ) - e) = ((m * 2 ^ j : ℕ) : ℚ) := by
    rw [show ((23 : ℤ) - e) = 1 + ((22 : ℤ) - e) by ring,
      zpow_add₀ (two_ne_zero : (2 : ℚ) ≠ 0), hj2, zpow_natCast, zpow_one]
    push_cast
    ring
  rw [hs]
  have hr : rne ((m * 2 ^ j : ℕ) : ℚ) = ((m * 2 ^ j : ℕ) : ℤ) := by
    rw [show ((m * 2 ^ j : ℕ) : ℚ) = (((m * 2 ^ j : ℕ) : ℤ) : ℚ) by push_cast; ring]
    exact rne_intCast _
  rw [hr]
  push_cast
  rw [mul_assoc, ← zpow_natCast (2 : ℚ) j, ← hj2,
    ← zpow_add₀ (two_ne_zero : (2 : ℚ) ≠ 0),
    show ((22 : ℤ) - e + (e - 23)) = (-1 : ℤ) by ring]
  rw [show (2 : ℚ) ^ (-1 : ℤ) = 1/2 by norm_num]
  ring

theorem rtcpBaseInterval_le (s : Transport) : rtcpBaseInterval s ≤ 1000 := by
  unfold rtcpBaseInterval MaxVideoIntervalMs
  dsimp only
  split_ifs <;> omega

theorem scheduledInterval_bounds (base k : ℕ) (hb : base ≤ 1000) (h5 : 5 ≤ k)
    (h15 : k ≤ 15) :
    base / 2 ≤ scheduledInterval base k ∧ scheduledInterval base k ≤ 1500 := by
  rcases Nat.eq_zero_or_pos base with hz | hpos
  · subst hz
    have hzero : scheduledInterval 0 k = 0 := by
      unfold scheduledInterval
      norm_num [roundF32]
    rw [hzero]
    omega
  · have hb0 : (0 : ℚ) ≤ (base : ℚ) := by positivity
    have hbpos : (0 : ℚ) < (base : ℚ) := by exact_mod_cast hpos
    have hbq : (base : ℚ) ≤ 1000 := by exact_mod_cast hb
    have hkpos : (0 : ℚ) < (k : ℚ)/10 := by
      have hk : (0 : ℚ) < (k : ℚ) := by exact_mod_cast (by omega : 0 < k)
      positivity
    have hkq : (k : ℚ) ≤ 15 := by exact_mod_cast h15
    have hfle : jitterFactor k ≤ (k : ℚ)/10 * (1 + 1/16777216) := roundF32_le hkpos
    have hfge : (k : ℚ)/10 * (1 - 1/16777216) ≤ jitterFactor k := le_roundF32 hkpos
    have hfpos : (0 : ℚ) < jitterFactor k := lt_of_lt_of_le (by positivity) hfge
    have hprodpos : (0 : ℚ) < (base : ℚ) * jitterFactor k := mul_pos hbpos hfpos
    have hple : roundF32 ((base : ℚ) * jitterFactor k)
        ≤ (base : ℚ) * jitterFactor k * (1 + 1/16777216) := roundF32_le hprodpos
    have hpge : (base : ℚ) * jitterFactor k * (1 - 1/16777216)
        ≤ roundF32 ((base : ℚ) * jitterFactor k) := le_roundF32 hprodpos
    have hup : roundF32 ((base : ℚ) * jitterFactor k) < 1501 := by
      have s1 : (base : ℚ) * jitterFactor k
          ≤ (base : ℚ) * ((k : ℚ)/10 * (1 + 1/16777216)) :=
        mul_le_mul_of_nonneg_left hfle hb0
      have s2 : (base : ℚ) * ((k : ℚ)/10 * (1 + 1/16777216))
          ≤ 1000 * ((15 : ℚ)/10 * (1 + 1/16777216)) := by
        refine mul_le_mul hbq ?_ ?_ (by norm_num)
        · refine mul_le_mul_of_nonneg_right ?_ (by norm_num)
          linarith
        · positivity
      have s3 : (base : ℚ) * jitterFactor k * (1 + 1/16777216)
          ≤ 1000 * ((15 : ℚ)/10 * (1 + 1/16777216)) * (1 + 1/16777216) :=
        mul_le_mul_of_nonneg_right (le_trans s1 s2) (by norm_num)
      have s4 : (1000 : ℚ) * ((15 : ℚ)/10 * (1 + 1/16777216)) * (1 + 1/16777216)
          < 1501 := by norm_num
      linarith
    have hupper : scheduledInterval base k ≤ 1500 := by
      unfold scheduledInterval
      have hfl : ⌊roundF32 ((base : ℚ) * jitterFactor k)⌋ < (1501 : ℤ) := by
        apply Int.floor_lt.mpr
        push_cast
        linarith
      omega
    have hlow : ((base : ℚ))/2 ≤ roundF32 ((base : ℚ) * jitterFactor k) := by
      rcases Nat.lt_or_ge k 6 with h6 | h6
      · have hk5 : k = 5 := by omega
        subst hk5
        have hf5 : jitterFactor 5 = 1/2 := by
          unfold jitterFactor
          rw [show ((5 : ℕ) : ℚ)/10 = ((1 : ℕ) : ℚ)/2 by norm_num]
          rw [roundF32_half_nat 1 one_pos (by norm_num)]
          norm_num
        rw [hf5, show (base : ℚ) * (1/2) = ((base : ℕ) : ℚ)/2 by ring]
        rw [roundF32_half_nat base hpos (by omega)]
      · have h6q : (6 : ℚ) ≤ (k : ℚ) := by exact_mod_cast h6
        have t1 : (6 : ℚ)/10 * (1 - 1/16777216) ≤ jitterFactor k := by
          refine le_trans ?_ hfge
          refine mul_le_mul_of_nonneg_right ?_ (by norm_num)
          linarith
        have t2 : (base : ℚ) * ((6 : ℚ)/10 * (1 - 1/16777216))
            ≤ (base : ℚ) * jitterFactor k :=
          mul_le_mul_of_nonneg_left t1 hb0
        have t3 : (base : ℚ) * ((6 : ℚ)/10 * (1 - 1/16777216)) * (1 - 1/16777216)
            ≤ (base : ℚ) * jitterFactor k * (1 - 1/16777216) :=
          mul_le_mul_of_nonneg_right t2 (by norm_num)
        nlinarith [hpge, t3, hbpos]
    have hlower : base / 2 ≤ scheduledInterval base k := by
      unfold scheduledInterval
      have hcast : ((base/2 : ℕ) : ℚ) ≤ roundF32 ((base : ℚ) * jitterFactor k) :=
        le_trans (by exact_mod_cast Nat.cast_div_le) hlow
      have hfloor : ((base/2 : ℕ) : ℤ) ≤ ⌊roundF32 ((base : ℚ) * jitterFactor k)⌋ :=
        Int.le_floor.mpr (by exact_mod_cast hcast)
      omega
    exact ⟨hlower, hupper⟩

/-! Characterization of the per-report RTCP loops. -/

theorem rrLoop_eq (cs : List (String × Consumer)) (reports : List Nat) :
    rrLoop cs reports =
      ((reports.takeWhile fun ssrc => (getStartedConsumer cs ssrc).isSome).map
          fun ssrc =>
            match getStartedConsumer cs ssrc with
            | some c => Event.deliverRRToConsumer c.id ssrc
            | none => Event.warnNoConsumerForRR ssrc)
        ++ (match reports.dropWhile
              (fun ssrc => (getStartedConsumer cs ssrc).isSome) with
            | [] => []
            | m :: _ => [Event.warnNoConsumerForRR m]) := by
  induction reports with
  | nil => simp [rrLoop]
  | cons r rest ih =>
    cases hg : getStartedConsumer cs r with
    | none => simp [rrLoop, hg, List.takeWhile_cons, List.dropWhile_cons]
    | some c => simp [rrLoop, hg, List.takeWhile_cons, List.dropWhile_cons, ih]

theorem srLoop_eq (t : List (Nat × Producer)) (reports : List Nat) :
    srLoop t reports =
      reports.map fun ssrc =>
        match getProducerTable t ssrc with
        | some p => Event.deliverSRToProducer p.id ssrc
        | none => Event.warnNoProducerForSR ssrc := by
  induction reports with
  | nil => simp [srLoop]
  | cons r rest ih =>
    cases hg : getProducerTable t r with
    | none => simp [srLoop, hg, ih]
    | some p => simp [srLoop, hg, ih]

/-- Claim C2: on a Receiver Report packet the embedded reports are handled
in order and processing stops at the first report whose SSRC matches no
started consumer (the matched prefix is delivered, the first miss is logged,
the remaining reports are dropped); on a Sender Report packet every report
is handled, a miss being logged and skipped while iteration continues.
Neither packet type changes the transport state. -/
theorem c2_rr_stops_sr_continues :
    ∀ (s : Transport) (reports : List Nat),
      ((receiveRtcpPacket s (.rr reports)).1 = s
        ∧ (receiveRtcpPacket s (.rr reports)).2 =
            ((reports.takeWhile fun ssrc =>
                  (getStartedConsumer s.mapConsumers ssrc).isSome).map
                fun ssrc =>
                  match getStartedConsumer s.mapConsumers ssrc with
                  | some c => Event.deliverRRToConsumer c.id ssrc
                  | none => Event.warnNoConsumerForRR ssrc)
              ++ (match reports.dropWhile
                    (fun ssrc => (getStartedConsumer s.mapConsumers ssrc).isSome) with
                  | [] => []
                  | m :: _ => [Event.warnNoConsumerForRR m]))
      ∧ (receiveRtcpPacket s (.sr reports)).1 = s
      ∧ (receiveRtcpPacket s (.sr reports)).2 =
          reports.map fun ssrc =>
            match getProducerTable s.rtpListener ssrc with
            | some p => Event.deliverSRToProducer p.id ssrc
            | none => Event.warnNoProducerForSR ssrc := by
  intro s reports
  exact ⟨⟨rfl, rrLoop_eq s.mapConsumers reports⟩, rfl,
    srLoop_eq s.rtpListener reports⟩

/-- Claim C9: HandleRequest never lets an exception escape: every request,
whatever its shape, produces a normal result carrying a reply (the helper
getters' throws are all caught and turned into rejects); and
ReceiveRtcpPacket returns normally on every packet, its only possible state
effect being a REMB update of availableOutgoingBitrate — every exceptional
condition surfaces as a reject or a logged event. -/
theorem c9_no_abort :
    (∀ (s : Transport) (req : Request),
      ∃ out, handleRequest s req = .ok out)
    ∧ (∀ (s : Transport) (pkt : RtcpPacket),
        (receiveRtcpPacket s pkt).1 = s
        ∨ ∃ b, (receiveRtcpPacket s pkt).1
            = { s with availableOutgoingBitrate := b }) := by
  constructor
  · intro s req
    unfold handleRequest
    cases req.methodId with
    | transportSetMaxIncomingBitrate =>
      cases h : mapFind req.data "bitrate" with
      | none => exact ⟨_, rfl⟩
      | some v => cases v <;> exact ⟨_, rfl⟩
    | producerClose =>
      cases h : getProducerFromRequest s req with
      | error e => exact ⟨_, rfl⟩
      | ok p => exact ⟨_, rfl⟩
    | consumerClose =>
      cases h : getConsumerFromRequest s req with
      | error e => exact ⟨_, rfl⟩
      | ok c => exact ⟨_, rfl⟩
    | unhandled => exact ⟨_, rfl⟩
  · intro s pkt
    cases pkt with
    | rr reports => exact Or.inl rfl
    | psfbKeyFrame m =>
      cases h : getStartedConsumer s.mapConsumers m with
      | none => exact Or.inl (by simp [receiveRtcpPacket, h])
      | some c => exact Or.inl (by simp [receiveRtcpPacket, h])
    | psfbAfbRemb b => exact Or.inr ⟨b, rfl⟩
    | psfbAfbOther m => exact Or.inl rfl
    | psfbOther m => exact Or.inl rfl
    | rtpfbNack m =>
      cases h : getStartedConsumer s.mapConsumers m with
      | none => exact Or.inl (by simp [receiveRtcpPacket, h])
      | some c => exact Or.inl (by simp [receiveRtcpPacket, h])
    | rtpfbOther m =>
      cases h : getStartedConsumer s.mapConsumers m with
      | none => exact Or.inl (by simp [receiveRtcpPacket, h])
      | some c => exact Or.inl (by simp [receiveRtcpPacket, h])
    | sr reports => exact Or.inl rfl
    | sdes chunks => exact Or.inl rfl
    | bye => exact Or.inl rfl
    | unhandledType t => exact Or.inl rfl

/-! Helper lemmas for the reject branches of the close handlers. -/

theorem getProducerFromRequest_missing {s : Transport} {req : Request}
    (h : ∀ pid, mapFind req.internal "producerId" ≠ some (.str pid)) :
    getProducerFromRequest s req = .error "request has no internal.producerId" := by
  unfold getProducerFromRequest
  cases hi : mapFind req.internal "producerId" with
  | none => rfl
  | some v =>
    cases v with
    | str pid => exact absurd hi (h pid)
    | uint n => rfl
    | other => rfl

theorem getProducerFromRequest_notFound {s : Transport} {req : Request} {pid : String}
    (hi : mapFind req.internal "producerId" = some (.str pid))
    (hm : mapFind s.mapProducers pid = none) :
    getProducerFromRequest s req = .error "Producer not found" := by
  simp [getProducerFromRequest, hi, hm]

theorem getConsumerFromRequest_missing {s : Transport} {req : Request}
    (h : ∀ cid, mapFind req.internal "consumerId" ≠ some (.str cid)) :
    getConsumerFromRequest s req = .error "request has no internal.consumerId" := by
  unfold getConsumerFromRequest
  cases hi : mapFind req.internal "consumerId" with
  | none => rfl
  | some v =>
    cases v with
    | str cid => exact absurd hi (h cid)
    | uint n => rfl
    | other => rfl

theorem getConsumerFromRequest_notFound {s : Transport} {req : Request} {cid : String}
    (hi : mapFind req.internal "consumerId" = some (.str cid))
    (hm : mapFind s.mapConsumers cid = none) :
    getConsumerFromRequest s req = .error "Consumer not found" := by
  simp [getConsumerFromRequest, hi, hm]

/-- Claim C3 (corrected): with `data.bitrate` a 64-bit unsigned JSON value v,
the request is accepted and maxIncomingBitrate becomes
`max (v mod 2 ^ 32) 10000` — the `get<uint32_t>()` read truncates v modulo
`2 ^ 32` before the 10000 floor is applied; with `data.bitrate` missing or
not an unsigned integer, the request is rejected with reason
"missing bitrate" and the state is unchanged. -/
theorem c3_amended :
    ∀ (s : Transport) (req : Request),
      req.methodId = .transportSetMaxIncomingBitrate →
      (∀ v : Nat, mapFind req.data "bitrate" = some (.uint v) →
        handleRequest s req
          = .ok ({ s with maxIncomingBitrate := max (v % 2 ^ 32) 10000 }, [],
              .accept))
      ∧ ((∀ v : Nat, mapFind req.data "bitrate" ≠ some (.uint v)) →
        handleRequest s req = .ok (s, [], .reject "missing bitrate")) := by
  intro s req hm
  constructor
  · intro v hv
    simp only [handleRequest, hm, hv]
    unfold MinBitrate
    split_ifs with h
    · rw [max_eq_right (le_of_lt h)]
    · rw [max_eq_left (by omega)]
  · intro hnone
    cases hb : mapFind req.data "bitrate" with
    | none => simp [handleRequest, hm, hb]
    | some v =>
      cases v with
      | uint n => exact absurd hb (hnone n)
      | str t => simp [handleRequest, hm, hb]
      | other => simp [handleRequest, hm, hb]

/-- Claim C3, counterexample to the claim as stated: for the unsigned JSON
value v = 2^32 = 4294967296 the request is accepted but maxIncomingBitrate
becomes 10000, not max(v, 10000) = 4294967296, because `get<uint32_t>()`
truncates the value to 0 before the floor is applied. -/
theorem c3_counterexample :
    handleRequest (initialTransport true)
        { methodId := .transportSetMaxIncomingBitrate
          internal := []
          data := [("bitrate", .uint 4294967296)] }
      = .ok ({ initialTransport true with maxIncomingBitrate := 10000 }, [],
          .accept)
    ∧ (10000 : Nat) ≠ max 4294967296 10000 := by
  constructor
  · rfl
  · decide

/-- Claim C3, witness: the accept branch of the amended claim evaluated at
the concrete request of scenario S1 (bitrate 500, clamped to 10000). -/
theorem c3_witness :
    handleRequest (initialTransport true)
        { methodId := .transportSetMaxIncomingBitrate
          internal := []
          data := [("bitrate", .uint 500)] }
      = .ok ({ initialTransport true with
                maxIncomingBitrate := max (500 % 2 ^ 32) 10000 }, [], .accept) :=
  (c3_amended (initialTransport true)
      { methodId := .transportSetMaxIncomingBitrate
        internal := []
        data := [("bitrate", .uint 500)] } rfl).1 500 (by decide)

/-- Claim C10: a successful TRANSPORT_SET_MAX_INCOMING_BITRATE request
modifies only maxIncomingBitrate; the producers map, consumers map,
rtpListener, header extension ids and availableOutgoingBitrate of the
resulting state all equal those of the original state. -/
theorem c10_set_bitrate_frame :
    ∀ (s : Transport) (req : Request) (v : Nat),
      req.methodId = .transportSetMaxIncomingBitrate →
      mapFind req.data "bitrate" = some (.uint v) →
      ∃ s2 evs r, handleRequest s req = .ok (s2, evs, r)
        ∧ r = .accept
        ∧ s2.mapProducers = s.mapProducers
        ∧ s2.mapConsumers = s.mapConsumers
        ∧ s2.rtpListener = s.rtpListener
        ∧ s2.rtpHeaderExtensionIds = s.rtpHeaderExtensionIds
        ∧ s2.availableOutgoingBitrate = s.availableOutgoingBitrate := by
  intro s req v hm hv
  refine ⟨{ s with
      maxIncomingBitrate :=
        if v % 2 ^ 32 < MinBitrate then MinBitrate else v % 2 ^ 32 },
    [], .accept, ?_, rfl, rfl, rfl, rfl, rfl, rfl⟩
  simp [handleRequest, hm, hv]

/-- Claim C10, witness: the frame condition evaluated at a concrete state
holding a producer and a consumer, with bitrate 20000. -/
theorem c10_witness :
    ∃ s2 evs r,
      handleRequest
          { mapProducers := [("p1",
              { id := "p1", primarySsrcs := [100]
                hdrExtIds := { absSendTime := 0, mid := 0, rid := 0 }
                rtcpRRCount := 0, rtcpBytes := 0 })]
            mapConsumers := []
            rtpListener := [(100,
              { id := "p1", primarySsrcs := [100]
                hdrExtIds := { absSendTime := 0, mid := 0, rid := 0 }
                rtcpRRCount := 0, rtcpBytes := 0 })]
            rtpHeaderExtensionIds := { absSendTime := 1, mid := 2, rid := 3 }
            maxIncomingBitrate := 0
            availableOutgoingBitrate := 777
            isConnected := true }
          { methodId := .transportSetMaxIncomingBitrate
            internal := []
            data := [("bitrate", .uint 20000)] }
        = .ok (s2, evs, r)
      ∧ r = .accept
      ∧ s2.mapProducers = [("p1",
          { id := "p1", primarySsrcs := [100]
            hdrExtIds := { absSendTime := 0, mid := 0, rid := 0 }
            rtcpRRCount := 0, rtcpBytes := 0 })]
      ∧ s2.mapConsumers = []
      ∧ s2.rtpListener = [(100,
          { id := "p1", primarySsrcs := [100]
            hdrExtIds := { absSendTime := 0, mid := 0, rid := 0 }
            rtcpRRCount := 0, rtcpBytes := 0 })]
      ∧ s2.rtpHeaderExtensionIds = { absSendTime := 1, mid := 2, rid := 3 }
      ∧ s2.availableOutgoingBitrate = 777 :=
  c10_set_bitrate_frame _ _ 20000 rfl (by decide)

/-- Claim C4: a PRODUCER_CLOSE request whose internal.producerId names a
producer in the map removes that producer from the map and from the
rtpListener in the same handler step, fires OnTransportProducerClosed
exactly once before the producer is destroyed (the event list is literally
the callback followed by the destruction), and accepts; a request whose
producerId is missing or not a string, or names no producer, is rejected
with the thrown reason and leaves the state untouched with no listener
events. -/
theorem c4_producer_close :
    ∀ (s : Transport) (req : Request),
      req.methodId = .producerClose →
      (∀ p : Producer, getProducerFromRequest s req = .ok p →
        handleRequest s req = .ok
          ({ s with
              mapProducers := mapErase s.mapProducers p.id
              rtpListener := removeProducerTable s.rtpListener p },
           [.cbProducerClosed p.id, .destroyProducer p.id], .accept)
        ∧ mapFind (mapErase s.mapProducers p.id) p.id = none)
      ∧ ((∀ pid, mapFind req.internal "producerId" ≠ some (.str pid)) →
        handleRequest s req
          = .ok (s, [], .reject "request has no internal.producerId"))
      ∧ (∀ pid, mapFind req.internal "producerId" = some (.str pid) →
        mapFind s.mapProducers pid = none →
        handleRequest s req = .ok (s, [], .reject "Producer not found")) := by
  intro s req hm
  refine ⟨?_, ?_, ?_⟩
  · intro p hok
    constructor
    · simp [handleRequest, hm, hok]
    · rw [mapFind_erase]
      simp
  · intro hmiss
    simp [handleRequest, hm, getProducerFromRequest_missing hmiss]
  · intro pid hi hnone
    simp [handleRequest, hm, getProducerFromRequest_notFound hi hnone]

/-- Claim C4, witness: scenario S2 — closing producer "p1" with SSRC 100
from a transport holding only it empties the map and the rtpListener, and
the reject branch fires on an unknown id. -/
theorem c4_witness :
    (handleRequest
        { mapProducers := [("p1",
            { id := "p1", primarySsrcs := [100]
              hdrExtIds := { absSendTime := 0, mid := 0, rid := 0 }
              rtcpRRCount := 0, rtcpBytes := 0 })]
          mapConsumers := []
          rtpListener := [(100,
            { id := "p1", primarySsrcs := [100]
              hdrExtIds := { absSendTime := 0, mid := 0, rid := 0 }
              rtcpRRCount := 0, rtcpBytes := 0 })]
          rtpHeaderExtensionIds := { absSendTime := 0, mid := 0, rid := 0 }
          maxIncomingBitrate := 0
          availableOutgoingBitrate := 0
          isConnected := true }
        { methodId := .producerClose
          internal := [("producerId", .str "p1")]
          data := [] }
      = .ok
        ({ mapProducers := []
           mapConsumers := []
           rtpListener := []
           rtpHeaderExtensionIds := { absSendTime := 0, mid := 0, rid := 0 }
           maxIncomingBitrate := 0
           availableOutgoingBitrate := 0
           isConnected := true },
         [.cbProducerClosed "p1", .destroyProducer "p1"], .accept))
    ∧ handleRequest (initialTransport true)
        { methodId := .producerClose
          internal := [("producerId", .str "p9")]
          data := [] }
      = .ok (initialTransport true, [], .reject "Producer not found") := by
  constructor
  · have h := ((c4_producer_close
      { mapProducers := [("p1",
          { id := "p1", primarySsrcs := [100]
            hdrExtIds := { absSendTime := 0, mid := 0, rid := 0 }
            rtcpRRCount := 0, rtcpBytes := 0 })]
        mapConsumers := []
        rtpListener := [(100,
          { id := "p1", primarySsrcs := [100]
            hdrExtIds := { absSendTime := 0, mid := 0, rid := 0 }
            rtcpRRCount := 0, rtcpBytes := 0 })]
        rtpHeaderExtensionIds := { absSendTime := 0, mid := 0, rid := 0 }
        maxIncomingBitrate := 0
        availableOutgoingBitrate := 0
        isConnected := true }
      { methodId := .producerClose
        internal := [("producerId", .str "p1")]
        data := [] } rfl).1
      { id := "p1", primarySsrcs := [100]
        hdrExtIds := { absSendTime := 0, mid := 0, rid := 0 }
        rtcpRRCount := 0, rtcpBytes := 0 } (by rfl)).1
    exact h.trans (by rfl)
  · exact (c4_producer_close _ _ rfl).2.2 "p9" (by decide) (by decide)

/-- Claim C8: a CONSUMER_CLOSE request whose internal.consumerId names a
consumer in the map removes that consumer from the consumers map (the
rtpListener is not involved: it is unchanged), fires
OnTransportConsumerClosed exactly once before the consumer is destroyed,
and accepts; an unknown or malformed consumerId yields a reject with the
state untouched.  The handler acts on the consumer resolved from the
request (the shadowed local variable name in the source notwithstanding,
per the spec's reading of the intent). -/
theorem c8_consumer_close :
    ∀ (s : Transport) (req : Request),
      req.methodId = .consumerClose →
      (∀ c : Consumer, getConsumerFromRequest s req = .ok c →
        handleRequest s req = .ok
          ({ s with mapConsumers := mapErase s.mapConsumers c.id },
           [.cbConsumerClosed c.id, .destroyConsumer c.id], .accept)
        ∧ mapFind (mapErase s.mapConsumers c.id) c.id = none
        ∧ ({ s with mapConsumers := mapErase s.mapConsumers c.id} : Transport).rtpListener
            = s.rtpListener)
      ∧ ((∀ cid, mapFind req.internal "consumerId" ≠ some (.str cid)) →
        handleRequest s req
          = .ok (s, [], .reject "request has no internal.consumerId"))
      ∧ (∀ cid, mapFind req.internal "consumerId" = some (.str cid) →
        mapFind s.mapConsumers cid = none →
        handleRequest s req = .ok (s, [], .reject "Consumer not found")) := by
  intro s req hm
  refine ⟨?_, ?_, ?_⟩
  · intro c hok
    refine ⟨?_, ?_, rfl⟩
    · simp [handleRequest, hm, hok]
    · rw [mapFind_erase]
      simp
  · intro hmiss
    simp [handleRequest, hm, getConsumerFromRequest_missing hmiss]
  · intro cid hi hnone
    simp [handleRequest, hm, getConsumerFromRequest_notFound hi hnone]

/-- Claim C8, witness: closing consumer "c1" from a transport holding only
it empties the consumers map, and an unknown consumerId is rejected. -/
theorem c8_witness :
    (handleRequest
        { mapProducers := []
          mapConsumers := [("c1",
            { id := "c1", kind := .video, started := true, encodings := []
              transmissionRate := 0, rtcpAddsSR := false, rtcpBytes := 0 })]
          rtpListener := []
          rtpHeaderExtensionIds := { absSendTime := 0, mid := 0, rid := 0 }
          maxIncomingBitrate := 0
          availableOutgoingBitrate := 0
          isConnected := true }
        { methodId := .consumerClose
          internal := [("consumerId", .str "c1")]
          data := [] }
      = .ok
        ({ mapProducers := []
           mapConsumers := []
           rtpListener := []
           rtpHeaderExtensionIds := { absSendTime := 0, mid := 0, rid := 0 }
           maxIncomingBitrate := 0
           availableOutgoingBitrate := 0
           isConnected := true },
         [.cbConsumerClosed "c1", .destroyConsumer "c1"], .accept))
    ∧ handleRequest (initialTransport true)
        { methodId := .consumerClose
          internal := [("consumerId", .str "c9")]
          data := [] }
      = .ok (initialTransport true, [], .reject "Consumer not found") := by
  constructor
  · have h := ((c8_consumer_close
      { mapProducers := []
        mapConsumers := [("c1",
          { id := "c1", kind := .video, started := true, encodings := []
            transmissionRate := 0, rtcpAddsSR := false, rtcpBytes := 0 })]
        rtpListener := []
        rtpHeaderExtensionIds := { absSendTime := 0, mid := 0, rid := 0 }
        maxIncomingBitrate := 0
        availableOutgoingBitrate := 0
        isConnected := true }
      { methodId := .consumerClose
        internal := [("consumerId", .str "c1")]
        data := [] } rfl).1
      { id := "c1", kind := .video, started := true, encodings := []
        transmissionRate := 0, rtcpAddsSR := false, rtcpBytes := 0 }
      (by rfl)).1
    exact h.trans (by rfl)
  · exact (c8_consumer_close _ _ rfl).2.2 "c9" (by decide) (by decide)

/-- Claim C1, counterexample to the claim as stated: after HandleProducer
registers producer "p1" with primary SSRC 100 and Close() runs, the producer
is gone from the producers map but its rtpListener entry for SSRC 100 is
still there — Close() never touches the rtpListener, so removal is not
atomic for Close(). -/
theorem c1_counterexample :
    (closeTransport (applyHandleProducer (initialTransport true)
        { id := "p1", primarySsrcs := [100]
          hdrExtIds := { absSendTime := 0, mid := 0, rid := 0 }
          rtcpRRCount := 0, rtcpBytes := 0 })).1.mapProducers = []
    ∧ getProducerTable
        (closeTransport (applyHandleProducer (initialTransport true)
          { id := "p1", primarySsrcs := [100]
            hdrExtIds := { absSendTime := 0, mid := 0, rid := 0 }
            rtcpRRCount := 0, rtcpBytes := 0 })).1.rtpListener 100
      = some
          { id := "p1", primarySsrcs := [100]
            hdrExtIds := { absSendTime := 0, mid := 0, rid := 0 }
            rtcpRRCount := 0, rtcpBytes := 0 } := by
  constructor
  · decide
  · decide

/-- Claim C1 (amended): in every state reachable by HandleProducer calls,
requests and Close() calls, each producer in the producers map is keyed by
its id and has every primary SSRC of its RTP parameters present exactly
once in rtpListener, mapping to it; a PRODUCER_CLOSE request removes the
producer from the map and its entries from rtpListener in the same handler
step; Close() empties the producers map but leaves the rtpListener entries
in place (the transport is to be destroyed immediately afterwards). -/
theorem c1_amended :
    (∀ s : Transport, Reachable s → ProducersListenerInv s)
    ∧ (∀ s : Transport,
        (closeTransport s).1.mapProducers = []
          ∧ (closeTransport s).1.rtpListener = s.rtpListener)
    ∧ (∀ (s : Transport) (req : Request) (p : Producer),
        req.methodId = .producerClose →
        getProducerFromRequest s req = .ok p →
        handleRequest s req = .ok
          ({ s with
              mapProducers := mapErase s.mapProducers p.id
              rtpListener := removeProducerTable s.rtpListener p },
           [.cbProducerClosed p.id, .destroyProducer p.id], .accept)) := by
  refine ⟨fun s h => inv_reachable h, fun s => ⟨rfl, rfl⟩, ?_⟩
  intro s req p hm hok
  simp [handleRequest, hm, hok]

/-- Claim C1, witness: the invariant of the amended claim instantiated at
the concrete reachable state obtained by registering producer "p1". -/
theorem c1_witness :
    ProducersListenerInv
      (applyHandleProducer (initialTransport true)
        { id := "p1", primarySsrcs := [100]
          hdrExtIds := { absSendTime := 0, mid := 0, rid := 0 }
          rtcpRRCount := 0, rtcpBytes := 0 }) :=
  c1_amended.1 _ (Reachable.produce _ (Reachable.init true))

/-- The binary32 value of 5/10 is exactly one half. -/
theorem jitterFactor_five : jitterFactor 5 = 1/2 := by
  unfold jitterFactor
  rw [show ((5 : ℕ) : ℚ)/10 = ((1 : ℕ) : ℚ)/2 by norm_num]
  rw [roundF32_half_nat 1 one_pos (by norm_num)]
  norm_num

/-- Claim C5, counterexample to the claim as stated: with one consumer
sending at 361000 bit/s the base interval is 360000 / 361 = 997 ms; for the
random draw k = 5 the rearmed interval is 997 * 0.5 truncated to 498 ms,
and 0.5 * 997 = 498.5 > 498, so the claimed bound 0.5 * base <= interval
fails. -/
theorem c5_counterexample :
    rtcpBaseInterval
        { mapProducers := []
          mapConsumers := [("c1",
            { id := "c1", kind := .video, started := true, encodings := []
              transmissionRate := 361000, rtcpAddsSR := false, rtcpBytes := 0 })]
          rtpListener := []
          rtpHeaderExtensionIds := { absSendTime := 0, mid := 0, rid := 0 }
          maxIncomingBitrate := 0
          availableOutgoingBitrate := 0
          isConnected := true } = 997
    ∧ onTimerNextInterval
        { mapProducers := []
          mapConsumers := [("c1",
            { id := "c1", kind := .video, started := true, encodings := []
              transmissionRate := 361000, rtcpAddsSR := false, rtcpBytes := 0 })]
          rtpListener := []
          rtpHeaderExtensionIds := { absSendTime := 0, mid := 0, rid := 0 }
          maxIncomingBitrate := 0
          availableOutgoingBitrate := 0
          isConnected := true } 5 = 498
    ∧ ¬ ((1/2 : ℚ) * 997 ≤ (498 : ℚ)) := by
  refine ⟨by decide, ?_, by norm_num⟩
  unfold onTimerNextInterval
  rw [show rtcpBaseInterval
      { mapProducers := []
        mapConsumers := [("c1",
          { id := "c1", kind := .video, started := true, encodings := []
            transmissionRate := 361000, rtcpAddsSR := false, rtcpBytes := 0 })]
        rtpListener := []
        rtpHeaderExtensionIds := { absSendTime := 0, mid := 0, rid := 0 }
        maxIncomingBitrate := 0
        availableOutgoingBitrate := 0
        isConnected := true } = 997 from by decide]
  unfold scheduledInterval
  rw [jitterFactor_five]
  rw [show ((997 : ℕ) : ℚ) * (1/2) = ((997 : ℕ) : ℚ)/2 by ring]
  rw [roundF32_half_nat 997 (by norm_num) (by norm_num)]
  rw [show ⌊((997 : ℕ) : ℚ)/2⌋ = 498 by
    rw [Int.floor_eq_iff]
    constructor <;> norm_num]
  rfl

/-- Claim C5 (amended): every interval the RTCP timer is rearmed with lies
between the integer part of half the base interval and 1.5 times
MaxVideoIntervalMs: the base computation is as claimed, but the random
factor is applied in binary32 float arithmetic and the product is truncated
to an integer number of milliseconds, so the lower bound is
floor(0.5 * base) rather than 0.5 * base. -/
theorem c5_amended :
    ∀ (s : Transport) (k : ℕ), 5 ≤ k → k ≤ 15 →
      rtcpBaseInterval s / 2 ≤ onTimerNextInterval s k
      ∧ onTimerNextInterval s k ≤ 3 * MaxVideoIntervalMs / 2 := by
  intro s k h5 h15
  have hb := scheduledInterval_bounds (rtcpBaseInterval s) k
    (rtcpBaseInterval_le s) h5 h15
  unfold onTimerNextInterval MaxVideoIntervalMs
  exact ⟨hb.1, by omega⟩

/-- Claim C5, witness: the amended bounds instantiated at the empty
transport (base = MaxVideoIntervalMs = 1000) and the draw k = 5. -/
theorem c5_witness :
    (5 : ℕ) ≤ 5 ∧ (5 : ℕ) ≤ 15
    ∧ (rtcpBaseInterval (initialTransport true) / 2
        ≤ onTimerNextInterval (initialTransport true) 5
      ∧ onTimerNextInterval (initialTransport true) 5
        ≤ 3 * MaxVideoIntervalMs / 2) :=
  ⟨by decide, by decide,
    c5_amended (initialTransport true) 5 (by decide) (by decide)⟩

/-- Claim C6 is contradicted by the code (and the code by its own TODO
comments): at the failing input — a connected transport registering an
audio consumer — HandleConsumer calls RequestKeyFrame directly on the
consumer (the video check gates only a debug log line), and it never goes
through the router listener; on a disconnected transport no request is made.
The claim says a key frame is requested only for video consumers and via
the router listener. -/
theorem c6_code_behavior :
    (handleConsumer (initialTransport true)
        { id := "c1", kind := .audio, started := false, encodings := []
          transmissionRate := 0, rtcpAddsSR := false, rtcpBytes := 0 }).2
      = [.requestKeyFrameOnConsumer "c1"]
    ∧ (∀ cid, Event.cbConsumerKeyFrameRequested cid
        ∉ (handleConsumer (initialTransport true)
            { id := "c1", kind := .audio, started := false, encodings := []
              transmissionRate := 0, rtcpAddsSR := false, rtcpBytes := 0 }).2)
    ∧ (handleConsumer (initialTransport false)
        { id := "c1", kind := .video, started := false, encodings := []
          transmissionRate := 0, rtcpAddsSR := false, rtcpBytes := 0 }).2
      = [] := by
  refine ⟨by decide, ?_, by decide⟩
  intro cid h
  rw [show (handleConsumer (initialTransport true)
      { id := "c1", kind := .audio, started := false, encodings := []
        transmissionRate := 0, rtcpAddsSR := false, rtcpBytes := 0 }).2
    = [Event.requestKeyFrameOnConsumer "c1"] from by decide] at h
  simp at h

/-! Helper lemmas about the SendRtcp consumer loop. -/

theorem consumerLoop_sent_le (cs : List Consumer) :
    ∀ (pkt c : Compound),
      SendEvt.sentCompound c ∈ (sendRtcpConsumerLoop pkt cs).1 →
      c.size ≤ BufferSize := by
  induction cs with
  | nil =>
    intro pkt c h
    simp [sendRtcpConsumerLoop] at h
  | cons hd tl ih =>
    intro pkt c h
    unfold sendRtcpConsumerLoop at h
    dsimp only at h
    split_ifs at h with hsr hbig
    · simp at h
    · simp only [List.mem_cons] at h
      rcases h with h | h
      · simp only [SendEvt.sentCompound.injEq] at h
        subst h
        omega
      · exact ih emptyCompound c h
    · exact ih (consumerGetRtcp hd pkt) c h

theorem consumerLoop_warn (cs : List Consumer) :
    ∀ (pkt : Compound) (pre post : List SendEvt) (sz : Nat),
      (sendRtcpConsumerLoop pkt cs).1
        = pre ++ SendEvt.warnPacketTooBig sz :: post →
      post = [] ∧ (sendRtcpConsumerLoop pkt cs).2 = none ∧ BufferSize < sz := by
  induction cs with
  | nil =>
    intro pkt pre post sz h
    simp [sendRtcpConsumerLoop] at h
  | cons hd tl ih =>
    intro pkt pre post sz h
    unfold sendRtcpConsumerLoop at h ⊢
    dsimp only at h ⊢
    split_ifs at h ⊢ with hsr hbig
    · rcases pre with _ | ⟨a, pre⟩
      · simp only [List.nil_append, List.cons.injEq,
          SendEvt.warnPacketTooBig.injEq] at h
        obtain ⟨h1, h2⟩ := h
        exact ⟨h2.symm, rfl, by omega⟩
      · simp only [List.cons_append, List.cons.injEq] at h
        obtain ⟨-, h⟩ := h
        simp at h
    · rcases pre with _ | ⟨a, pre⟩
      · simp at h
      · simp only [List.cons_append, List.cons.injEq] at h
        obtain ⟨-, h⟩ := h
        exact ih emptyCompound pre post sz h
    · exact ih (consumerGetRtcp hd pkt) pre post sz h

theorem consumerLoop_no_warn (cs : List Consumer) :
    ∀ (pkt q : Compound),
      (sendRtcpConsumerLoop pkt cs).2 = some q →
      ∀ sz, SendEvt.warnPacketTooBig sz ∉ (sendRtcpConsumerLoop pkt cs).1 := by
  induction cs with
  | nil =>
    intro pkt q hq sz h
    simp [sendRtcpConsumerLoop] at h
  | cons hd tl ih =>
    intro pkt q
    unfold sendRtcpConsumerLoop
    dsimp only
    split_ifs with hsr hbig
    · intro hq
      exact hq.elim
    · intro hq sz h
      rcases List.mem_cons.mp h with h | h
      · exact SendEvt.noConfusion h
      · exact ih emptyCompound q hq sz h
    · intro hq sz h
      exact ih (consumerGetRtcp hd pkt) q hq sz h

theorem no_warn_append_warn :
    ∀ (evts : List SendEvt) (szl : Nat) (pre post : List SendEvt) (sz : Nat),
      (∀ x, SendEvt.warnPacketTooBig x ∉ evts) →
      evts ++ [SendEvt.warnPacketTooBig szl]
        = pre ++ SendEvt.warnPacketTooBig sz :: post →
      sz = szl ∧ post = [] := by
  intro evts
  induction evts with
  | nil =>
    intro szl pre post sz hno h
    rcases pre with _ | ⟨a, pre⟩
    · simp only [List.nil_append, List.cons.injEq,
        SendEvt.warnPacketTooBig.injEq] at h
      obtain ⟨h1, h2⟩ := h
      exact ⟨h1.symm, h2.symm⟩
    · simp only [List.nil_append, List.cons_append, List.cons.injEq] at h
      obtain ⟨-, h⟩ := h
      simp at h
  | cons e tl ih =>
    intro szl pre post sz hno h
    rcases pre with _ | ⟨a, pre⟩
    · simp only [List.nil_append, List.cons_append, List.cons.injEq] at h
      apply absurd _ (hno sz)
      rw [← h.1]
      exact List.mem_cons_self e tl
    · simp only [List.cons_append, List.cons.injEq] at h
      obtain ⟨-, h⟩ := h
      exact ih szl pre post sz
        (fun x hmem => hno x (List.mem_cons_of_mem e hmem)) h

/-- Claim C7: in SendRtcp every compound that is actually emitted fits the
RTCP buffer (no truncation or partial send is possible), and when an
oversized compound is encountered the function logs the warning and returns
at once — the warning is always the last event of the tick, with nothing
emitted after it, and its recorded size exceeds BufferSize. -/
theorem c7_oversized_dropped :
    ∀ s : Transport,
      (∀ c : Compound,
        SendEvt.sentCompound c ∈ sendRtcp s → c.size ≤ BufferSize)
      ∧ (∀ (pre post : List SendEvt) (sz : Nat),
          sendRtcp s = pre ++ SendEvt.warnPacketTooBig sz :: post →
          BufferSize < sz ∧ post = []) := by
  intro s
  rcases hE : sendRtcpConsumerLoop emptyCompound (mapValues s.mapConsumers)
    with ⟨evts, rest⟩
  have hsent : ∀ c, SendEvt.sentCompound c ∈ evts → c.size ≤ BufferSize := by
    intro c hc
    exact consumerLoop_sent_le (mapValues s.mapConsumers) emptyCompound c
      (by rw [hE]; exact hc)
  cases rest with
  | none =>
    have hred : sendRtcp s = evts := by
      unfold sendRtcp
      rw [hE]
    rw [hred]
    constructor
    · exact hsent
    · intro pre post sz h
      have hw := consumerLoop_warn (mapValues s.mapConsumers) emptyCompound
        pre post sz (by rw [hE]; exact h)
      exact ⟨hw.2.2, hw.1⟩
  | some pkt =>
    have hnowarn : ∀ sz, SendEvt.warnPacketTooBig sz ∉ evts := by
      intro sz hmem
      exact consumerLoop_no_warn (mapValues s.mapConsumers) emptyCompound pkt
        (by rw [hE]) sz (by rw [hE]; exact hmem)
    have hred : sendRtcp s =
        (if ((mapValues s.mapProducers).foldl producerGetRtcp pkt).rrCount ≠ 0
         then
          (if BufferSize
              < ((mapValues s.mapProducers).foldl producerGetRtcp pkt).size then
            evts ++ [.warnPacketTooBig
              ((mapValues s.mapProducers).foldl producerGetRtcp pkt).size]
          else
            evts ++ [.sentCompound
              ((mapValues s.mapProducers).foldl producerGetRtcp pkt)])
         else evts) := by
      unfold sendRtcp
      rw [hE]
    rw [hred]
    split_ifs with hrr hbig
    · constructor
      · intro c hc
        rcases List.mem_append.mp hc with hc | hc
        · exact hsent c hc
        · simp at hc
      · intro pre post sz h
        obtain ⟨h1, h2⟩ := no_warn_append_warn evts _ pre post sz hnowarn h
        exact ⟨by omega, h2⟩
    · constructor
      · intro c hc
        rcases List.mem_append.mp hc with hc | hc
        · exact hsent c hc
        · simp only [List.mem_singleton, SendEvt.sentCompound.injEq] at hc
          subst hc
          omega
      · intro pre post sz h
        exfalso
        have hmem : SendEvt.warnPacketTooBig sz
            ∈ evts ++ [SendEvt.sentCompound
              ((mapValues s.mapProducers).foldl producerGetRtcp pkt)] := by
          rw [h]
          exact List.mem_append_right _ (List.mem_cons_self _ _)
        rcases List.mem_append.mp hmem with hm | hm
        · exact hnowarn sz hm
        · simp at hm
    · constructor
      · exact hsent
      · intro pre post sz h
        exfalso
        have hmem : SendEvt.warnPacketTooBig sz ∈ evts := by
          rw [h]
          exact List.mem_append_right _ (List.mem_cons_self _ _)
        exact hnowarn sz hmem

/-- Claim C7, witness: a consumer whose RTCP data holds a sender report of
65537 bytes makes the tick emit exactly the drop warning, which the theorem
certifies as oversized and final. -/
theorem c7_witness : BufferSize < 65537 ∧ ([] : List SendEvt) = [] :=
  (c7_oversized_dropped
    { mapProducers := []
      mapConsumers := [("c1",
        { id := "c1", kind := .video, started := true, encodings := []
          transmissionRate := 0, rtcpAddsSR := true, rtcpBytes := 65537 })]
      rtpListener := []
      rtpHeaderExtensionIds := { absSendTime := 0, mid := 0, rid := 0 }
      maxIncomingBitrate := 0
      availableOutgoingBitrate := 0
      isConnected := true }).2 [] [] 65537 (by decide)

end Mediasoup
